import Mathlib

/-!
Shallow embedding of the session lifecycle, authentication gate and audit
trail of the Kursadmin dashboard (src/session_manager.py, src/auth.py,
src/audit.py, src/app.py).

Python dictionaries carrying JSON data are modelled as association lists
over string keys; ISO-formatted timestamps are modelled as natural-number
instants (constructor `Val.vtime`), any other string value as `Val.vstr`.
The Session Store (the `user_sessions` table) is either unreachable
(every query raises, caught by the code) or a list of rows.  The Cookie
Vault is the pair of entries `session_id` and `user_info`; a `user_info`
cookie payload either parses as JSON (`CookiePayload.json`) or raises on
`json.loads` (`CookiePayload.malformed`).  Streamlit session state is the
record of the in-process authentication fields.  Functions that in Python
perform I/O additionally report how many Session Store and Cookie Vault
accesses they made, so frame properties can be stated.
-/

namespace Kursadmin

/-- A JSON field value: a time instant (valid ISO timestamp) or any other string. -/
inductive Val where
  | vstr (s : String)
  | vtime (t : Nat)
deriving DecidableEq, Repr

/-- A Python dict with string keys, as an association list. -/
abbrev Dict := List (String × Val)

/-- `d.get(k)`: first binding of key `k`. -/
def dget (k : String) (d : Dict) : Option Val :=
  (d.find? (fun p => p.1 = k)).map (fun p => p.2)

/-- `d[k] = v` on a copy: bind `k` to `v`, dropping any previous binding. -/
def dinsert (k : String) (v : Val) (d : Dict) : Dict :=
  (k, v) :: d.filter (fun p => p.1 ≠ k)

/-- Python truthiness of a field value (empty string is falsy, a datetime is truthy). -/
def valTruthy : Val → Bool
  | .vstr s => !s.isEmpty
  | .vtime _ => true

/-- `datetime.fromisoformat`: succeeds exactly on values representing valid timestamps. -/
def fromIsoformat : Val → Option Nat
  | .vtime t => some t
  | .vstr _ => none

/-- String rendering of a field value. -/
def valToStr : Val → String
  | .vstr s => s
  | .vtime t => toString t

/-- A serialized payload as stored in a cookie or a database row: either
well-formed JSON encoding a dict, or bytes on which `json.loads` raises. -/
inductive CookiePayload where
  | json (d : Dict)
  | malformed (s : String)
deriving DecidableEq, Repr

/-- The Cookie Vault: the two entries the session manager uses
(`session_id` and `user_info`), each possibly absent. -/
structure Cookies where
  sessionId : Option String
  userInfo : Option CookiePayload
deriving DecidableEq, Repr

/-- One row of the `user_sessions` table. -/
structure SessionRow where
  session_id : String
  user_info : CookiePayload
  expires_at : Nat
  is_active : Bool
deriving DecidableEq, Repr

/-- The Session Store: unreachable (every query raises, and the code
catches the exception) or a reachable table of rows. -/
inductive DbState where
  | unreachable
  | table (rows : List SessionRow)
deriving DecidableEq, Repr

/-- The in-process (Streamlit session state) authentication fields. -/
structure SessionState where
  current_session_id : Option String
  authenticated : Option Bool
  user_info : Option Dict
  access_token : Option String
  token_expiry : Option Nat
  auth_timestamp : Option Nat
deriving DecidableEq, Repr

/-- Result of `validate_session`: the profile or absent, the possibly
mutated cookie jar, and how many store / cookie reads were performed. -/
structure VRes where
  result : Option Dict
  cookies : Cookies
  dbAccesses : Nat
  cookieAccesses : Nat
deriving DecidableEq, Repr

/-- Python truthiness of an optional session-id string. -/
def strTruthy : Option String → Bool
  | none => false
  | some s => !s.isEmpty

/-- `SessionManager._try_database_validation`: query the row with the given
session id that is active and unexpired; parse its stored user-info JSON.
Any exception (unreachable store, unparsable JSON) is caught and yields
absent. -/
def tryDatabaseValidation : DbState → String → Nat → Option Dict
  | .unreachable, _, _ => none
  | .table rows, sid, now =>
    match rows.find? (fun r => r.session_id = sid && r.is_active && decide (now < r.expires_at)) with
    | none => none
    | some r =>
      match r.user_info with
      | .json d => some d
      | .malformed _ => none

/-- `SessionManager._try_cookie_validation`: read the `user_info` cookie,
parse it, and if it carries a truthy `expires_at` field check the cookie's
own embedded expiry; an expired or corrupt cookie entry is deleted from the
jar and absent is returned. -/
def tryCookieValidation (ck : Cookies) (now : Nat) : Option Dict × Cookies :=
  match ck.userInfo with
  | none => (none, ck)
  | some (.malformed _) => (none, { ck with userInfo := none })
  | some (.json d) =>
    match dget "expires_at" d with
    | none => (some d, ck)
    | some v =>
      if valTruthy v then
        match fromIsoformat v with
        | none => (none, { ck with userInfo := none })
        | some t => if t ≤ now then (none, { ck with userInfo := none }) else (some d, ck)
      else (some d, ck)

/-- `SessionManager.validate_session`: a falsy session id is absent at
once; otherwise the database is tried first, then the cookie fallback. -/
def validate_session (db : DbState) (ck : Cookies) (now : Nat) (sid : Option String) : VRes :=
  match sid with
  | none => ⟨none, ck, 0, 0⟩
  | some s =>
    if s.isEmpty then ⟨none, ck, 0, 0⟩
    else
      match tryDatabaseValidation db s now with
      | some u => ⟨some u, ck, 1, 0⟩
      | none =>
        let p := tryCookieValidation ck now
        ⟨p.1, p.2, 1, 1⟩

/-- `SessionManager.clear_session_cookie`: delete both cookie entries,
flush, and clear the six in-process fields. -/
def clear_session_cookie (ck : Cookies) (ss : SessionState) : Cookies × SessionState :=
  ( { sessionId := none, userInfo := none },
    { ss with current_session_id := none, authenticated := none, user_info := none,
              access_token := none, token_expiry := none, auth_timestamp := none } )

/-- `auth.get_current_user`: the in-process user profile. -/
def get_current_user (ss : SessionState) : Option Dict :=
  ss.user_info

/-- `SessionManager.create_session`: stamp the profile with a 24h expiry
and best-effort append it to the store (a failed insert, e.g. a duplicate
primary key or an unreachable store, is caught and the session continues
cookie-only).  The fresh random session id is a parameter. -/
def create_session (db : DbState) (user_info : Dict) (sid : String) (now : Nat) :
    String × DbState :=
  let enhanced := dinsert "expires_at" (.vtime (now + 86400)) user_info
  let db2 :=
    match db with
    | .unreachable => DbState.unreachable
    | .table rows =>
      if rows.any (fun r => r.session_id = sid) then DbState.table rows
      else DbState.table (rows ++ [⟨sid, .json enhanced, now + 86400, true⟩])
  (sid, db2)

/-- `SessionManager.set_session_cookie`: write the session id cookie and,
when the in-process profile is truthy (present and, by Python dict
truthiness, non-empty), a redundant copy of it stamped with the
in-process token expiry (default 24h); record the id in process state.
An absent or empty profile skips the `user_info` cookie write. -/
def set_session_cookie (ck : Cookies) (ss : SessionState) (sid : String) (now : Nat) :
    Cookies × SessionState :=
  let ck1 : Cookies := { ck with sessionId := some sid }
  let ck2 : Cookies :=
    match ss.user_info with
    | none => ck1
    | some u =>
      if u.isEmpty then ck1
      else
        let e := match ss.token_expiry with
          | some t => t
          | none => now + 86400
        { ck1 with userInfo := some (.json (dinsert "expires_at" (.vtime e) u)) }
  (ck2, { ss with current_session_id := some sid })

/-- The session-minting part of `AzureADAuth.handle_auth_callback`:
populate in-process state with the exchanged profile and a 1h token
expiry, create the session, and set the cookies. -/
def loginFlow (db : DbState) (ck : Cookies) (user_info : Dict) (sid : String) (now : Nat) :
    DbState × Cookies × SessionState :=
  let ss : SessionState :=
    { current_session_id := none, authenticated := some true, user_info := some user_info,
      access_token := some "token", token_expiry := some (now + 3600),
      auth_timestamp := some now }
  let sd := create_session db user_info sid now
  let cs := set_session_cookie ck ss sd.1 now
  (sd.2, cs.1, cs.2)

/-- Result of `get_session_cookie`. -/
structure GRes where
  sid : Option String
  cookies : Cookies
  ss : SessionState
  dbAccesses : Nat
  cookieAccesses : Nat
deriving DecidableEq, Repr

/-- Second half of `SessionManager.get_session_cookie`: read the id from
the cookie jar (one cookie access) and revalidate it. -/
def getSessionCookieFromJar (db : DbState) (ck : Cookies) (ss : SessionState) (now : Nat)
    (dbA ckA : Nat) : GRes :=
  let cv := ck.sessionId
  if strTruthy cv then
    let v := validate_session db ck now cv
    if v.result.isSome then
      ⟨cv, v.cookies, { ss with current_session_id := cv },
        dbA + v.dbAccesses, ckA + 1 + v.cookieAccesses⟩
    else ⟨none, v.cookies, ss, dbA + v.dbAccesses, ckA + 1 + v.cookieAccesses⟩
  else ⟨none, ck, ss, dbA, ckA + 1⟩

/-- `SessionManager.get_session_cookie`: prefer the in-process id after
revalidating it, else fall back to the cookie jar. -/
def get_session_cookie (db : DbState) (ck : Cookies) (ss : SessionState) (now : Nat) : GRes :=
  let sid0 := ss.current_session_id
  if strTruthy sid0 then
    let v := validate_session db ck now sid0
    if v.result.isSome then ⟨sid0, v.cookies, ss, v.dbAccesses, v.cookieAccesses⟩
    else getSessionCookieFromJar db v.cookies ss now v.dbAccesses v.cookieAccesses
  else getSessionCookieFromJar db ck ss now 0 0

/-- Result of `is_authenticated`. -/
structure ARes where
  ok : Bool
  ss : SessionState
  cookies : Cookies
  dbAccesses : Nat
  cookieAccesses : Nat
deriving DecidableEq, Repr

/-- The restoration side effect of `AzureADAuth.is_authenticated`. -/
def restoreState (ss : SessionState) (u : Dict) (now : Nat) : SessionState :=
  { ss with authenticated := some true, user_info := some u,
            access_token := some "restored_session", token_expiry := some (now + 86400),
            auth_timestamp := some now }

/-- Slow path of `AzureADAuth.is_authenticated`: restore from the
persistent session via the session manager. -/
def isAuthenticatedSlow (db : DbState) (ck : Cookies) (ss : SessionState) (now : Nat) : ARes :=
  let g := get_session_cookie db ck ss now
  if strTruthy g.sid then
    let v := validate_session db g.cookies now g.sid
    match v.result with
    | some u =>
      ⟨true, restoreState g.ss u now, v.cookies,
        g.dbAccesses + v.dbAccesses, g.cookieAccesses + v.cookieAccesses⟩
    | none =>
      ⟨false, g.ss, v.cookies,
        g.dbAccesses + v.dbAccesses, g.cookieAccesses + v.cookieAccesses⟩
  else ⟨false, g.ss, g.cookies, g.dbAccesses, g.cookieAccesses⟩

/-- `AzureADAuth.is_authenticated`: fast path on a truthy in-process flag
within its expiry, otherwise attempt restoration. -/
def is_authenticated (db : DbState) (ck : Cookies) (ss : SessionState) (now : Nat) : ARes :=
  if ss.authenticated = some true then
    match ss.token_expiry with
    | some t => if now < t then ⟨true, ss, ck, 0, 0⟩ else isAuthenticatedSlow db ck ss now
    | none => isAuthenticatedSlow db ck ss now
  else isAuthenticatedSlow db ck ss now

/-- One row of the `audit_log` table. -/
structure AuditEntry where
  user_name : String
  action : String
  table_name : Option String
  record_id : Option String
  timestamp : Nat
deriving DecidableEq, Repr

/-- Outcome of the audit database write (`DataFrame.to_sql`): success, or
an exception such as a missing table or an unreachable engine. -/
inductive DbWrite where
  | ok
  | fails (msg : String)
deriving DecidableEq, Repr

/-- Python `a or b` over an optional field value: the value when present
and truthy, else the fallback. -/
def pyOr (a : Option Val) (b : String) : String :=
  match a with
  | some v => if valTruthy v then valToStr v else b
  | none => b

/-- The actor-name derivation in `AuditLogger.log_action`. -/
def auditUserName (cu : Option Dict) : String :=
  match cu with
  | none => "System"
  | some u =>
    pyOr (dget "displayName" u)
      (pyOr (dget "display_name" u)
        (match dget "name" u with
         | some v => valToStr v
         | none => "Unknown User"))

/-- The body of `AuditLogger.log_action` before its `except` clause: build
the entry and attempt the database append, which may raise. -/
def logActionRun (cu : Option Dict) (now : Nat) (action : String)
    (table_name record_id : Option String) (w : DbWrite) (log : List AuditEntry) :
    Except String (List AuditEntry) :=
  match w with
  | .ok => .ok (log ++ [⟨auditUserName cu, action, table_name, record_id, now⟩])
  | .fails m => .error m

/-- `AuditLogger.log_action` with its `try`/`except`: every exception from
the body is caught (printed only) and the audit log is left unchanged. -/
def logActionCaught (cu : Option Dict) (now : Nat) (action : String)
    (table_name record_id : Option String) (w : DbWrite) (log : List AuditEntry) :
    Except String (List AuditEntry) :=
  match logActionRun cu now action table_name record_id w log with
  | .ok l => .ok l
  | .error _ => .ok log

/-- `AuditLogger.log_action` as the caller sees it: a total function on
the audit log. -/
def log_action (cu : Option Dict) (now : Nat) (action : String)
    (table_name record_id : Option String) (w : DbWrite) (log : List AuditEntry) :
    List AuditEntry :=
  match logActionCaught cu now action table_name record_id w log with
  | .ok l => l
  | .error _ => log

/-- `audit.log_page_view`: one audit row labelled with the viewed page. -/
def log_page_view (cu : Option Dict) (now : Nat) (w : DbWrite) (page : String)
    (course_id : Option String) (log : List AuditEntry) : List AuditEntry :=
  log_action cu now ("view_" ++ page) (some "coursedates") course_id w log

/-- The navigation-dedup state and the audit sink, as used by `app.py`. -/
structure AppState where
  last_logged_page : Option String
  last_logged_course_id : Option String
  audit : List AuditEntry
deriving DecidableEq, Repr

/-- `app.smart_log_page_view`: emit one audit record and update the
tracking pair exactly when the (page, course id) pair differs from the
last logged pair. -/
def smart_log_page_view (cu : Option Dict) (now : Nat) (w : DbWrite) (page_name : String)
    (course_id : Option String) (s : AppState) : AppState :=
  if some page_name ≠ s.last_logged_page ∨ course_id ≠ s.last_logged_course_id then
    { last_logged_page := some page_name, last_logged_course_id := course_id,
      audit := log_page_view cu now w page_name course_id s.audit }
  else s

/-- Freshness of a session id with respect to the store: no existing row
uses it (as guaranteed for a freshly generated UUID). -/
def dbFresh : DbState → String → Prop
  | .unreachable, _ => True
  | .table rows, sid => ∀ r ∈ rows, r.session_id ≠ sid

/-! ## Dictionary lemmas -/

theorem dget_dinsert_same (k : String) (v : Val) (d : Dict) :
    dget k (dinsert k v d) = some v := by
  simp [dget, dinsert]

theorem find?_key_filter (k k' : String) (d : Dict) (h : k' ≠ k) :
    (d.filter (fun p : String × Val => p.1 ≠ k)).find? (fun p => p.1 = k')
      = d.find? (fun p => p.1 = k') := by
  induction d with
  | nil => rfl
  | cons a t ih =>
    by_cases hk : a.1 = k
    · have h1 : ¬ (decide (a.1 ≠ k) = true) := by simp [hk]
      have h2 : ¬ (decide (a.1 = k') = true) := by
        simp only [decide_eq_true_eq]
        rw [hk]
        exact fun e => h e.symm
      rw [List.filter_cons_of_neg (p := fun q : String × Val => q.1 ≠ k) h1,
        List.find?_cons_of_neg (p := fun q : String × Val => q.1 = k') t h2]
      exact ih
    · have h1 : decide (a.1 ≠ k) = true := by simp [hk]
      rw [List.filter_cons_of_pos (p := fun q : String × Val => q.1 ≠ k) h1]
      by_cases hk2 : a.1 = k'
      · have h2 : decide (a.1 = k') = true := by simp [hk2]
        rw [List.find?_cons_of_pos (p := fun q : String × Val => q.1 = k') _ h2,
          List.find?_cons_of_pos (p := fun q : String × Val => q.1 = k') t h2]
      · have h2 : ¬ (decide (a.1 = k') = true) := by simp [hk2]
        rw [List.find?_cons_of_neg (p := fun q : String × Val => q.1 = k') _ h2,
          List.find?_cons_of_neg (p := fun q : String × Val => q.1 = k') t h2]
        exact ih

theorem dget_dinsert_ne (k k' : String) (v : Val) (d : Dict) (h : k' ≠ k) :
    dget k' (dinsert k v d) = dget k' d := by
  have h2 : ¬ (decide (((k, v) : String × Val).1 = k') = true) := by
    simp only [decide_eq_true_eq]
    exact fun e => h e.symm
  unfold dget dinsert
  rw [List.find?_cons_of_neg (p := fun q : String × Val => q.1 = k') _ h2,
    find?_key_filter k k' d h]

/-! ## Claims -/

/-- Claim C10: `validate_session` called with an absent session id (None
or the empty string, both falsy in Python) returns absent immediately,
leaving the cookie jar untouched and performing zero Session Store and
zero Cookie Vault accesses. -/
theorem c10_falsy_session_id_short_circuit (db : DbState) (ck : Cookies) (now : Nat) :
    validate_session db ck now none = ⟨none, ck, 0, 0⟩ ∧
    validate_session db ck now (some "") = ⟨none, ck, 0, 0⟩ := by
  exact ⟨rfl, rfl⟩

/-- Claim C9: a well-formed cookie profile that lacks the embedded
`expires_at` field is accepted by `_try_cookie_validation` at every
current time, with no freshness check and no cookie mutation — such a
cookie never expires via the cookie path. -/
theorem c9_missing_expiry_accepted (ck : Cookies) (d : Dict) (now : Nat)
    (hck : ck.userInfo = some (.json d)) (hexp : dget "expires_at" d = none) :
    tryCookieValidation ck now = (some d, ck) := by
  simp [tryCookieValidation, hck, hexp]

theorem c9_witness :
    (⟨none, some (.json [("displayName", Val.vstr "Bob")])⟩ : Cookies).userInfo
        = some (.json [("displayName", Val.vstr "Bob")]) ∧
    dget "expires_at" [("displayName", Val.vstr "Bob")] = none ∧
    tryCookieValidation ⟨none, some (.json [("displayName", Val.vstr "Bob")])⟩ 999999
      = (some [("displayName", Val.vstr "Bob")],
         ⟨none, some (.json [("displayName", Val.vstr "Bob")])⟩) :=
  ⟨rfl, by decide,
    c9_missing_expiry_accepted ⟨none, some (.json [("displayName", Val.vstr "Bob")])⟩
      [("displayName", Val.vstr "Bob")] 999999 rfl (by decide)⟩

/-- Claim C3: with the Session Store raising (unreachable database) and a
well-formed cookie profile whose embedded expiry lies in the future,
`validate_session` returns that cookie-stored profile. -/
theorem c3_store_error_cookie_fallback (ck : Cookies) (d : Dict) (t now : Nat) (sid : String)
    (hsid : sid.isEmpty = false) (hck : ck.userInfo = some (.json d))
    (hexp : dget "expires_at" d = some (.vtime t)) (hfut : now < t) :
    (validate_session DbState.unreachable ck now (some sid)).result = some d := by
  have hnl : ¬ t ≤ now := by omega
  have hc : tryCookieValidation ck now = (some d, ck) := by
    simp [tryCookieValidation, hck, hexp, valTruthy, fromIsoformat, hnl]
  simp [validate_session, hsid, tryDatabaseValidation, hc]

theorem c3_witness :
    ("sid3" : String).isEmpty = false ∧
    (⟨none, some (.json [("expires_at", Val.vtime 100), ("mail", Val.vstr "a")])⟩
        : Cookies).userInfo
      = some (.json [("expires_at", Val.vtime 100), ("mail", Val.vstr "a")]) ∧
    dget "expires_at" [("expires_at", Val.vtime 100), ("mail", Val.vstr "a")]
      = some (.vtime 100) ∧
    50 < 100 ∧
    (validate_session DbState.unreachable
        ⟨none, some (.json [("expires_at", Val.vtime 100), ("mail", Val.vstr "a")])⟩
        50 (some "sid3")).result
      = some [("expires_at", Val.vtime 100), ("mail", Val.vstr "a")] :=
  ⟨by decide, rfl, by decide, by decide,
    c3_store_error_cookie_fallback
      ⟨none, some (.json [("expires_at", Val.vtime 100), ("mail", Val.vstr "a")])⟩
      [("expires_at", Val.vtime 100), ("mail", Val.vstr "a")] 100 50 "sid3"
      (by decide) rfl (by decide) (by decide)⟩

/-- Claim C4: a cookie profile whose embedded expiry is at or before the
current time is rejected by the cookie fallback whenever the database
layer yields nothing (in particular when the store is unreachable):
`validate_session` returns absent and the expired cookie entry is
deleted. -/
theorem c4_expired_cookie_rejected (db : DbState) (ck : Cookies) (d : Dict) (t now : Nat)
    (sid : String) (hsid : sid.isEmpty = false)
    (hdb : tryDatabaseValidation db sid now = none)
    (hck : ck.userInfo = some (.json d)) (hexp : dget "expires_at" d = some (.vtime t))
    (hpast : t ≤ now) :
    (validate_session db ck now (some sid)).result = none ∧
    (validate_session db ck now (some sid)).cookies.userInfo = none := by
  have hc : tryCookieValidation ck now = (none, { ck with userInfo := none }) := by
    simp [tryCookieValidation, hck, hexp, valTruthy, fromIsoformat, hpast]
  simp [validate_session, hsid, hdb, hc]

theorem c4_witness :
    ("sid4" : String).isEmpty = false ∧
    tryDatabaseValidation DbState.unreachable "sid4" 10 = none ∧
    (⟨some "sid4", some (.json [("expires_at", Val.vtime 10)])⟩ : Cookies).userInfo
      = some (.json [("expires_at", Val.vtime 10)]) ∧
    dget "expires_at" [("expires_at", Val.vtime 10)] = some (.vtime 10) ∧
    10 ≤ 10 ∧
    ((validate_session DbState.unreachable
        ⟨some "sid4", some (.json [("expires_at", Val.vtime 10)])⟩ 10 (some "sid4")).result
        = none ∧
     (validate_session DbState.unreachable
        ⟨some "sid4", some (.json [("expires_at", Val.vtime 10)])⟩ 10
        (some "sid4")).cookies.userInfo = none) :=
  ⟨by decide, rfl, rfl, by decide, by decide,
    c4_expired_cookie_rejected DbState.unreachable
      ⟨some "sid4", some (.json [("expires_at", Val.vtime 10)])⟩
      [("expires_at", Val.vtime 10)] 10 10 "sid4" (by decide) rfl rfl (by decide)
      (by decide)⟩

/-- Claim C6: when the database layer yields no profile, the result of
`validate_session` does not depend on the session id — any two non-empty
session ids evaluated against the same cookie state give the same full
result (the cookie fallback never checks that the stored profile belongs
to the given session id). -/
theorem c6_result_independent_of_session_id (db : DbState) (ck : Cookies) (now : Nat)
    (s1 s2 : String) (h1 : s1.isEmpty = false) (h2 : s2.isEmpty = false)
    (hdb1 : tryDatabaseValidation db s1 now = none)
    (hdb2 : tryDatabaseValidation db s2 now = none) :
    validate_session db ck now (some s1) = validate_session db ck now (some s2) := by
  simp [validate_session, h1, h2, hdb1, hdb2]

theorem c6_witness :
    ("ida" : String).isEmpty = false ∧ ("idb" : String).isEmpty = false ∧
    tryDatabaseValidation DbState.unreachable "ida" 0 = none ∧
    tryDatabaseValidation DbState.unreachable "idb" 0 = none ∧
    validate_session DbState.unreachable
        ⟨none, some (.json [("mail", Val.vstr "x")])⟩ 0 (some "ida")
      = validate_session DbState.unreachable
        ⟨none, some (.json [("mail", Val.vstr "x")])⟩ 0 (some "idb") :=
  ⟨by decide, by decide, rfl, rfl,
    c6_result_independent_of_session_id DbState.unreachable
      ⟨none, some (.json [("mail", Val.vstr "x")])⟩ 0 "ida" "idb"
      (by decide) (by decide) rfl rfl⟩

/-- Claim C5: when the in-memory authenticated flag is truthy and the
in-memory token expiry has not elapsed, `is_authenticated` returns true
with zero Session Store and zero Cookie Vault accesses, leaving process
state and cookies untouched — the fast path is in-memory only. -/
theorem c5_fast_path_no_io (db : DbState) (ck : Cookies) (ss : SessionState) (now t : Nat)
    (h1 : ss.authenticated = some true) (h2 : ss.token_expiry = some t) (h3 : now < t) :
    is_authenticated db ck ss now = ⟨true, ss, ck, 0, 0⟩ := by
  simp [is_authenticated, h1, h2, h3]

theorem c5_witness :
    (⟨none, some true, some [], some "tok", some 10, some 0⟩
        : SessionState).authenticated = some true ∧
    (⟨none, some true, some [], some "tok", some 10, some 0⟩
        : SessionState).token_expiry = some 10 ∧
    3 < 10 ∧
    is_authenticated DbState.unreachable ⟨none, none⟩
        ⟨none, some true, some [], some "tok", some 10, some 0⟩ 3
      = ⟨true, ⟨none, some true, some [], some "tok", some 10, some 0⟩,
          ⟨none, none⟩, 0, 0⟩ :=
  ⟨rfl, rfl, by decide,
    c5_fast_path_no_io DbState.unreachable ⟨none, none⟩
      ⟨none, some true, some [], some "tok", some 10, some 0⟩ 3 10 rfl rfl
      (by decide)⟩

/-- Claim C8: `log_action` wraps its whole body in a catch-all handler:
for every input and every outcome of the underlying database write
(including a missing audit table) it completes normally, and on a failed
write the audit log is left unchanged — an audit write failure can never
abort a user-facing operation. -/
theorem c8_audit_failure_swallowed (cu : Option Dict) (now : Nat) (action : String)
    (table_name record_id : Option String) (w : DbWrite) (log : List AuditEntry)
    (m : String) :
    (∃ l, logActionCaught cu now action table_name record_id w log = Except.ok l) ∧
    logActionCaught cu now action table_name record_id (.fails m) log = Except.ok log ∧
    log_action cu now action table_name record_id (.fails m) log = log := by
  refine ⟨?_, rfl, rfl⟩
  cases w with
  | ok => exact ⟨_, rfl⟩
  | fails m2 => exact ⟨log, rfl⟩

/-- Claim C7: the navigation-dedup filter emits an audit record exactly
when the (page, course id) pair differs from the last logged pair: a
repeated call with the same pair appends nothing, a first call from the
initial state produces exactly one record, and a call with a different
pair after it produces exactly two. -/
theorem c7_navigation_dedup (cu : Option Dict) (now : Nat) (p p' : String)
    (c c' : Option String) (s : AppState) (hne : (p, c) ≠ (p', c')) :
    (smart_log_page_view cu now .ok p c (smart_log_page_view cu now .ok p c s)).audit
      = (smart_log_page_view cu now .ok p c s).audit ∧
    (smart_log_page_view cu now .ok p c ⟨none, none, []⟩).audit.length = 1 ∧
    (smart_log_page_view cu now .ok p' c'
        (smart_log_page_view cu now .ok p c ⟨none, none, []⟩)).audit.length = 2 := by
  have hcond3 : some p' ≠ some p ∨ c' ≠ c := by
    by_cases hp : p' = p
    · right
      intro e
      exact hne (by rw [hp, e])
    · left
      simp [hp]
  have hstep : smart_log_page_view cu now .ok p c ⟨none, none, []⟩
      = ⟨some p, c, log_page_view cu now .ok p c []⟩ := by
    simp [smart_log_page_view]
  refine ⟨?_, ?_, ?_⟩
  · by_cases hcond : some p ≠ s.last_logged_page ∨ c ≠ s.last_logged_course_id
    · simp [smart_log_page_view, hcond]
    · have hinner : smart_log_page_view cu now .ok p c s = s := by
        rw [smart_log_page_view, if_neg hcond]
      rw [hinner, smart_log_page_view, if_neg hcond]
  · rw [hstep]
    simp [log_page_view, log_action, logActionCaught, logActionRun]
  · rw [hstep, smart_log_page_view, if_pos hcond3]
    simp [log_page_view, log_action, logActionCaught, logActionRun]

theorem c7_witness :
    (("CourseList", (none : Option String)) ≠ ("CourseDetail", some "C123")) ∧
    ((smart_log_page_view none 0 .ok "CourseList" none
          (smart_log_page_view none 0 .ok "CourseList" none ⟨none, none, []⟩)).audit
        = (smart_log_page_view none 0 .ok "CourseList" none ⟨none, none, []⟩).audit ∧
      (smart_log_page_view none 0 .ok "CourseList" none ⟨none, none, []⟩).audit.length = 1 ∧
      (smart_log_page_view none 0 .ok "CourseDetail" (some "C123")
          (smart_log_page_view none 0 .ok "CourseList" none
            ⟨none, none, []⟩)).audit.length = 2) :=
  ⟨by decide,
    c7_navigation_dedup none 0 "CourseList" "CourseDetail" none (some "C123")
      ⟨none, none, []⟩ (by decide)⟩

/-- Claim C1 (amended): `clear_session_cookie` deletes both cookie
entries, clears all six in-process fields, and `get_current_user` then
returns absent; but the Session Store row is never invalidated, so
`validate_session` with the old session id returns absent only when the
database layer yields nothing for it (store unreachable, row absent or
expired) — the cleared cookie layer no longer validates anything. -/
theorem c1_logout_clears_cookies_and_state (db : DbState) (ck : Cookies) (ss : SessionState)
    (now : Nat) (oldSid : String)
    (hdb : tryDatabaseValidation db oldSid now = none) :
    get_current_user (clear_session_cookie ck ss).2 = none ∧
    (clear_session_cookie ck ss).1 = ⟨none, none⟩ ∧
    (clear_session_cookie ck ss).2 = ⟨none, none, none, none, none, none⟩ ∧
    (validate_session db (clear_session_cookie ck ss).1 now (some oldSid)).result
      = none := by
  refine ⟨rfl, rfl, rfl, ?_⟩
  by_cases he : oldSid.isEmpty
  · simp [validate_session, he]
  · simp [validate_session, he, hdb, tryCookieValidation, clear_session_cookie]

theorem c1_witness :
    tryDatabaseValidation DbState.unreachable "sid1" 5 = none ∧
    (get_current_user (clear_session_cookie
          ⟨some "sid1", some (.json [("displayName", Val.vstr "Alice")])⟩
          ⟨some "sid1", some true, some [("displayName", Val.vstr "Alice")],
            some "tok", some 10, some 0⟩).2 = none ∧
      (clear_session_cookie
          ⟨some "sid1", some (.json [("displayName", Val.vstr "Alice")])⟩
          ⟨some "sid1", some true, some [("displayName", Val.vstr "Alice")],
            some "tok", some 10, some 0⟩).1 = ⟨none, none⟩ ∧
      (clear_session_cookie
          ⟨some "sid1", some (.json [("displayName", Val.vstr "Alice")])⟩
          ⟨some "sid1", some true, some [("displayName", Val.vstr "Alice")],
            some "tok", some 10, some 0⟩).2 = ⟨none, none, none, none, none, none⟩ ∧
      (validate_session DbState.unreachable
          (clear_session_cookie
            ⟨some "sid1", some (.json [("displayName", Val.vstr "Alice")])⟩
            ⟨some "sid1", some true, some [("displayName", Val.vstr "Alice")],
              some "tok", some 10, some 0⟩).1 5 (some "sid1")).result = none) :=
  ⟨rfl,
    c1_logout_clears_cookies_and_state DbState.unreachable
      ⟨some "sid1", some (.json [("displayName", Val.vstr "Alice")])⟩
      ⟨some "sid1", some true, some [("displayName", Val.vstr "Alice")],
        some "tok", some 10, some 0⟩ 5 "sid1" rfl⟩

/-- Claim C1 counterexample: after `clear_session_cookie`, the old
session id still validates through the Session Store when the store is
reachable and still holds its active, unexpired row — `validate_session`
returns the profile instead of absent, refuting exhaustive logout as
stated. -/
theorem c1_counterexample_db_row_survives_logout :
    (validate_session
        (DbState.table [⟨"sid1", .json [("displayName", Val.vstr "Alice")], 10, true⟩])
        (clear_session_cookie
          ⟨some "sid1", some (.json [("displayName", Val.vstr "Alice")])⟩
          ⟨some "sid1", some true, some [("displayName", Val.vstr "Alice")],
            some "tok", some 10, some 0⟩).1
        5 (some "sid1")).result
      = some [("displayName", Val.vstr "Alice")] := by
  decide

/-- Claim C2 (amended): for a truthy (non-empty) profile,
`create_session` followed by `set_session_cookie` and an immediate
`validate_session` with the fresh session id returns the stored profile,
which preserves every field of the original unchanged but additionally
carries an `expires_at` stamp — on both the database path and the
cookie-only path (store unreachable).  An empty profile is excluded: its
falsy dict skips the redundant cookie write, so the cookie-only round
trip returns absent. -/
theorem c2_roundtrip_adds_expiry_preserves_fields (db : DbState) (ck : Cookies)
    (profile : Dict) (sid : String) (now : Nat)
    (hsid : sid.isEmpty = false) (hprof : profile.isEmpty = false)
    (hfresh : dbFresh db sid) :
    ∃ r t, (validate_session (loginFlow db ck profile sid now).1
        (loginFlow db ck profile sid now).2.1 now (some sid)).result = some r ∧
      dget "expires_at" r = some (.vtime t) ∧
      ∀ k, k ≠ "expires_at" → dget k r = dget k profile := by
  cases db with
  | unreachable =>
    refine ⟨dinsert "expires_at" (.vtime (now + 3600)) profile, now + 3600, ?_, ?_, ?_⟩
    · have hnl : ¬ (now + 3600 ≤ now) := by omega
      simp [loginFlow, create_session, set_session_cookie, validate_session, hsid,
        hprof, tryDatabaseValidation, tryCookieValidation, dget_dinsert_same, valTruthy,
        fromIsoformat, hnl]
    · exact dget_dinsert_same _ _ _
    · intro k hk
      exact dget_dinsert_ne _ k _ profile hk
  | table rows =>
    have hfr : ∀ r ∈ rows, r.session_id ≠ sid := by
      simpa [dbFresh] using hfresh
    have hany : rows.any (fun r => r.session_id = sid) = false := by
      simp only [List.any_eq_false, decide_eq_true_eq]
      exact hfr
    have hnone : rows.find?
        (fun r => r.session_id = sid && r.is_active && decide (now < r.expires_at))
        = none := by
      rw [List.find?_eq_none]
      intro r hr
      simp [hfr r hr]
    refine ⟨dinsert "expires_at" (.vtime (now + 86400)) profile, now + 86400, ?_, ?_, ?_⟩
    · have hlt : now < now + 86400 := by omega
      simp [loginFlow, create_session, set_session_cookie, validate_session, hsid,
        tryDatabaseValidation, hany, List.find?_append, hnone, hlt]
    · exact dget_dinsert_same _ _ _
    · intro k hk
      exact dget_dinsert_ne _ k _ profile hk

theorem c2_witness :
    ("s1" : String).isEmpty = false ∧
    ([("mail", Val.vstr "bob")] : Dict).isEmpty = false ∧
    dbFresh DbState.unreachable "s1" ∧
    (∃ r t, (validate_session
          (loginFlow DbState.unreachable ⟨none, none⟩
            [("mail", Val.vstr "bob")] "s1" 7).1
          (loginFlow DbState.unreachable ⟨none, none⟩
            [("mail", Val.vstr "bob")] "s1" 7).2.1 7 (some "s1")).result = some r ∧
      dget "expires_at" r = some (.vtime t) ∧
      ∀ k, k ≠ "expires_at" → dget k r = dget k [("mail", Val.vstr "bob")]) :=
  ⟨by decide, by decide, trivial,
    c2_roundtrip_adds_expiry_preserves_fields DbState.unreachable ⟨none, none⟩
      [("mail", Val.vstr "bob")] "s1" 7 (by decide) (by decide) trivial⟩

/-- Claim C2 counterexample: the round-tripped profile is not equal
field-for-field to the original — on the cookie-only path the returned
profile carries an `expires_at` field that the original profile does not
have, so the two differ at that field. -/
theorem c2_counterexample_extra_field :
    ((validate_session
        (loginFlow DbState.unreachable ⟨none, none⟩
          [("displayName", Val.vstr "Alice")] "s1" 0).1
        (loginFlow DbState.unreachable ⟨none, none⟩
          [("displayName", Val.vstr "Alice")] "s1" 0).2.1 0 (some "s1")).result.map
        (dget "expires_at"))
      = some (some (Val.vtime 3600)) ∧
    dget "expires_at" [("displayName", Val.vstr "Alice")] = none := by
  exact ⟨by decide, by decide⟩

end Kursadmin
